import Mathlib

/-!
Verification of the measurement-model utilities of an Extended Kalman Filter
tracker (`utils.py`): coordinate transforms between the 4-dimensional
Cartesian state (px, py, vx, vy) and the 3-dimensional polar observation
(range, bearing, range-rate), the 3×4 observation Jacobian, the RMSE stub,
and the measurement-record data carrier.

The Python code computes with IEEE floats; this development models that
arithmetic exactly over `ℝ`.  Fallible Python functions (those that can raise)
are embedded as `Except String`-valued functions whose error strings name the
exception raised.  The claims about approximate decimal outputs are stated as
explicit absolute-error bounds.
-/

open Real

noncomputable section

/-- Embeds `state_vector_to_scalars`: a 4×1 state column vector is modelled as
a function `Fin 4 → ℝ`, and the helper returns its four scalar entries
`(px, py, vx, vy)`. -/
def state_vector_to_scalars (state_vector : Fin 4 → ℝ) : ℝ × ℝ × ℝ × ℝ :=
  (state_vector 0, state_vector 1, state_vector 2, state_vector 3)

/-- Embeds Python `math.atan2 y x`: the two-argument arctangent with range
(−π, π], well-defined in all four quadrants and on the axes, and 0 at the
origin.  `Complex.arg ⟨x, y⟩` is exactly this function on the reals. -/
def atan2 (y x : ℝ) : ℝ := Complex.arg ⟨x, y⟩

/-- Embeds `cart_2_polar`: computes ρ = sqrt(px²+py²), φ = atan2(py, px),
ρ̇ = (px·vx + py·vy)/ρ and returns them as a 3×1 column.  The division by
ρ raises `ZeroDivisionError` exactly when ρ = 0, which the Python code
catches and re-raises as `ValueError('px and py cannot be zero.')`. -/
def cart_2_polar (state_vector : Fin 4 → ℝ) : Except String (Fin 3 → ℝ) :=
  let px := state_vector 0
  let py := state_vector 1
  let vx := state_vector 2
  let vy := state_vector 3
  let ro := Real.sqrt (px ^ 2 + py ^ 2)
  let phi := atan2 py px
  if ro = 0 then
    Except.error "px and py cannot be zero."
  else
    Except.ok ![ro, phi, (px * vx + py * vy) / ro]

/-- Embeds `polar_2_cart`: takes the polar radar reading (ro, phi, ro_dot)
and returns the Cartesian position pair `(cos phi * ro, sin phi * ro)`.
Total; `ro_dot` is never read. -/
def polar_2_cart (ro phi ro_dot : ℝ) : ℝ × ℝ :=
  (Real.cos phi * ro, Real.sin phi * ro)

/-- Embeds `calculate_rmse`: the body is a bare `raise NotImplementedError`,
so every call fails. -/
def calculate_rmse (estimations ground_truth : List (Fin 4 → ℝ)) :
    Except String (Fin 4 → ℝ) :=
  Except.error "NotImplementedError"

/-- One Python item assignment `Hj[i,j] = v` on a 3×4 matrix. -/
def setEntry (M : Fin 3 → Fin 4 → ℝ) (i : Fin 3) (j : Fin 4) (v : ℝ) :
    Fin 3 → Fin 4 → ℝ :=
  fun a b => if a = i ∧ b = j then v else M a b

/-- Embeds `calculate_jacobian`.  The Python body has no zero guard: it
computes `sqrt(px²+py²)` and divides by it, so `px / 0.0` raises
`ZeroDivisionError` exactly when px²+py² = 0.  `math.pow(base, 3/2)` (with
Python 3's `3/2 = 1.5`) raises `ValueError: math domain error` whenever its
base is negative; the two bases are `(py·(vx·py − vy·px))/(px²+py²)` (line
`Hj[2,0]`, evaluated first) and `(px·(vx·py − vy·px))/(px²+py²)` (line
`Hj[2,1]`).  On success the ten item assignments are replayed in program
order on a zero matrix — including the double store into `Hj[2,2]` at the
last two lines, which leaves `Hj[2,3]` at 0. -/
def calculate_jacobian (state_vector : Fin 4 → ℝ) :
    Except String (Fin 3 → Fin 4 → ℝ) :=
  let px := state_vector 0
  let py := state_vector 1
  let vx := state_vector 2
  let vy := state_vector 3
  let xy_squared_sum := px ^ 2 + py ^ 2
  let xy_squared_sum_sqrt := Real.sqrt xy_squared_sum
  let xvx_yvy_mul_diff := vx * py - vy * px
  if xy_squared_sum_sqrt = 0 then
    Except.error "float division by zero"
  else if (py * xvx_yvy_mul_diff) / xy_squared_sum < 0 then
    Except.error "math domain error"
  else if (px * xvx_yvy_mul_diff) / xy_squared_sum < 0 then
    Except.error "math domain error"
  else
    let px_div_xy_squared_sum_sqrt := px / xy_squared_sum_sqrt
    let py_div_xy_squared_sum_sqrt := py / xy_squared_sum_sqrt
    let Hj0 : Fin 3 → Fin 4 → ℝ := fun _ _ => 0
    let Hj1 := setEntry Hj0 0 0 px_div_xy_squared_sum_sqrt
    let Hj2 := setEntry Hj1 0 1 py_div_xy_squared_sum_sqrt
    let Hj3 := setEntry Hj2 1 0 (-py / xy_squared_sum)
    let Hj4 := setEntry Hj3 1 1 (px / xy_squared_sum)
    let Hj5 := setEntry Hj4 2 0 (((py * xvx_yvy_mul_diff) / xy_squared_sum) ^ ((3 : ℝ) / 2))
    let Hj6 := setEntry Hj5 2 1 (((px * xvx_yvy_mul_diff) / xy_squared_sum) ^ ((3 : ℝ) / 2))
    let Hj7 := setEntry Hj6 2 2 px_div_xy_squared_sum_sqrt
    let Hj8 := setEntry Hj7 2 2 py_div_xy_squared_sum_sqrt
    Except.ok Hj8

/-- Embeds the `SensorType` enum. -/
inductive SensorType where
  | LIDAR
  | RADAR
deriving DecidableEq

/-- Enum payload characters: LIDAR = 'L', RADAR = 'R'. -/
def SensorType.value : SensorType → Char
  | .LIDAR => 'L'
  | .RADAR => 'R'

/-- A raw parsed input line as handed to the `MeasurementPacket` constructor:
`packet[0]` is the single-character sensor tag and `field i` is the numeric
value at index `i ≥ 1` of the tokenized record. -/
structure RawPacket where
  tag : Char
  field : ℕ → ℝ

/-- Embeds the `MeasurementPacket` object after construction: the LIDAR
variant stores measured (x, y), timestamp and the four ground-truth values;
the RADAR variant stores measured (ρ, φ, ρ̇), timestamp and the four
ground-truth values. -/
inductive MeasurementPacket where
  | lidar (x_measured y_measured timestamp x_groundtruth y_groundtruth
      vx_groundtruth vy_groundtruth : ℝ)
  | radar (rho_measured phi_measured rhodot_measured timestamp x_groundtruth
      y_groundtruth vx_groundtruth vy_groundtruth : ℝ)

/-- Embeds the `sensor_type` attribute set in `__init__`. -/
def MeasurementPacket.sensor_type : MeasurementPacket → SensorType
  | .lidar .. => .LIDAR
  | .radar .. => .RADAR

/-- Embeds `MeasurementPacket.__init__`: tag 'L' selects `setup_lidar`
(fields `[1]=x, [2]=y, [3]=timestamp, [4..7]=ground truth`); any other tag
selects `setup_radar` (fields `[1]=ρ, [2]=φ, [3]=ρ̇, [4]=timestamp,
[5..8]=ground truth`). -/
def MeasurementPacket.ofPacket (packet : RawPacket) : MeasurementPacket :=
  if packet.tag = 'L' then
    .lidar (packet.field 1) (packet.field 2) (packet.field 3) (packet.field 4)
      (packet.field 5) (packet.field 6) (packet.field 7)
  else
    .radar (packet.field 1) (packet.field 2) (packet.field 3) (packet.field 4)
      (packet.field 5) (packet.field 6) (packet.field 7) (packet.field 8)

/-- Embeds the `z` property: the measurement as a column vector, 2×1 for
LIDAR and 3×1 for RADAR, modelled as a list whose length is the vector
height. -/
def MeasurementPacket.z : MeasurementPacket → List ℝ
  | .lidar x y _ _ _ _ _ => [x, y]
  | .radar rho phi rhodot _ _ _ _ _ => [rho, phi, rhodot]

end

/-- C3: for every state of the form (0, 0, vx, vy) the forward transform
`cart_2_polar` fails with the singular-geometry error, for any velocity
components. -/
theorem C3_cart_2_polar_zero_range_errors (vx vy : ℝ) :
    cart_2_polar ![0, 0, vx, vy] = Except.error "px and py cannot be zero." := by
  unfold cart_2_polar
  norm_num

/-- C7: `polar_2_cart` is total, returns (ρ·cos φ, ρ·sin φ), and its result
does not depend on the range-rate argument. -/
theorem C7_polar_2_cart_total (ro phi ro_dot : ℝ) :
    polar_2_cart ro phi ro_dot = (ro * Real.cos phi, ro * Real.sin phi) ∧
      ∀ ro_dot2 : ℝ, polar_2_cart ro phi ro_dot = polar_2_cart ro phi ro_dot2 := by
  constructor
  · unfold polar_2_cart
    rw [mul_comm (Real.cos phi) ro, mul_comm (Real.sin phi) ro]
  · intro ro_dot2
    rfl

/-- C9: `calculate_rmse` fails unconditionally with the not-implemented
error; it never returns a value. -/
theorem C9_calculate_rmse_unimplemented (estimations ground_truth : List (Fin 4 → ℝ)) :
    calculate_rmse estimations ground_truth = Except.error "NotImplementedError" := rfl

/-- C8: a record built with tag 'L' yields the 2×1 observation (x, y) from
fields 1 and 2; a record built with tag 'R' yields the 3×1 observation
(ρ, φ, ρ̇) from fields 1–3; and the concrete line
['L', 5.0, 3.0, 100, 5.1, 3.1, 1.0, 0.5] gives sensor type LIDAR with
observation (5.0, 3.0). -/
theorem C8_observation_vector :
    (∀ f : ℕ → ℝ, (MeasurementPacket.ofPacket ⟨'L', f⟩).z = [f 1, f 2]) ∧
    (∀ f : ℕ → ℝ, (MeasurementPacket.ofPacket ⟨'R', f⟩).z = [f 1, f 2, f 3]) ∧
    ((MeasurementPacket.ofPacket
        ⟨'L', fun i => [0, 5.0, 3.0, 100, 5.1, 3.1, 1.0, 0.5].getD i 0⟩).sensor_type
        = SensorType.LIDAR ∧
      (MeasurementPacket.ofPacket
        ⟨'L', fun i => [0, 5.0, 3.0, 100, 5.1, 3.1, 1.0, 0.5].getD i 0⟩).z
        = [5.0, 3.0]) := by
  refine ⟨fun f => ?_, fun f => ?_, ?_, ?_⟩
  · simp [MeasurementPacket.ofPacket, MeasurementPacket.z]
  · simp [MeasurementPacket.ofPacket, MeasurementPacket.z]
  · simp [MeasurementPacket.ofPacket, MeasurementPacket.sensor_type]
  · simp [MeasurementPacket.ofPacket, MeasurementPacket.z, List.getD]

/-- C10: any tag other than 'L' makes the constructor succeed with sensor
type RADAR and the RADAR field layout, and every constructed record has
sensor type LIDAR or RADAR. -/
theorem C10_non_lidar_tag_defaults_to_radar :
    (∀ (t : Char) (f : ℕ → ℝ), t ≠ 'L' →
      (MeasurementPacket.ofPacket ⟨t, f⟩).sensor_type = SensorType.RADAR ∧
      MeasurementPacket.ofPacket ⟨t, f⟩ =
        MeasurementPacket.radar (f 1) (f 2) (f 3) (f 4) (f 5) (f 6) (f 7) (f 8)) ∧
    (∀ p : RawPacket, (MeasurementPacket.ofPacket p).sensor_type = SensorType.LIDAR ∨
      (MeasurementPacket.ofPacket p).sensor_type = SensorType.RADAR) := by
  constructor
  · intro t f ht
    constructor
    · simp [MeasurementPacket.ofPacket, MeasurementPacket.sensor_type, ht]
    · simp [MeasurementPacket.ofPacket, ht]
  · intro p
    unfold MeasurementPacket.ofPacket
    by_cases hp : p.tag = 'L'
    · left
      simp [hp, MeasurementPacket.sensor_type]
    · right
      simp [hp, MeasurementPacket.sensor_type]

/-- C10 witness: the tag 'R' (which differs from 'L') yields a RADAR record
laid out per the RADAR field layout. -/
theorem C10_non_lidar_tag_defaults_to_radar_witness :
    (MeasurementPacket.ofPacket ⟨'R', fun _ => 0⟩).sensor_type = SensorType.RADAR ∧
    MeasurementPacket.ofPacket ⟨'R', fun _ => 0⟩ =
      MeasurementPacket.radar 0 0 0 0 0 0 0 0 :=
  C10_non_lidar_tag_defaults_to_radar.1 'R' (fun _ => 0) (by decide)

/-- The matrix that a successful `calculate_jacobian` call returns, written
in closed form: rows 0 and 1 are the range and bearing gradients, while in
row 2 the first two entries carry the misported `pow(·, 3/2)` terms, entry
(2,2) holds the value of the SECOND store into `Hj[2,2]` (py divided by the
root), and entry (2,3) keeps its initial 0. -/
noncomputable def jacEntries (px py vx vy : ℝ) : Fin 3 → Fin 4 → ℝ :=
  ![![px / Real.sqrt (px ^ 2 + py ^ 2), py / Real.sqrt (px ^ 2 + py ^ 2), 0, 0],
    ![-py / (px ^ 2 + py ^ 2), px / (px ^ 2 + py ^ 2), 0, 0],
    ![((py * (vx * py - vy * px)) / (px ^ 2 + py ^ 2)) ^ ((3 : ℝ) / 2),
      ((px * (vx * py - vy * px)) / (px ^ 2 + py ^ 2)) ^ ((3 : ℝ) / 2),
      py / Real.sqrt (px ^ 2 + py ^ 2), 0]]

/-- When none of the three runtime failures fires, `calculate_jacobian`
returns exactly `jacEntries`. -/
lemma calculate_jacobian_eq (px py vx vy : ℝ)
    (h1 : ¬ Real.sqrt (px ^ 2 + py ^ 2) = 0)
    (h2 : ¬ (py * (vx * py - vy * px)) / (px ^ 2 + py ^ 2) < 0)
    (h3 : ¬ (px * (vx * py - vy * px)) / (px ^ 2 + py ^ 2) < 0) :
    calculate_jacobian ![px, py, vx, vy] = Except.ok (jacEntries px py vx vy) := by
  unfold calculate_jacobian
  simp only [Matrix.cons_val_zero, Matrix.cons_val_one, Matrix.head_cons,
    Matrix.cons_val_two, Matrix.vecTail, Function.comp_apply, Fin.succ_zero_eq_one,
    Matrix.cons_val_three, Matrix.vecHead, Fin.succ_one_eq_two]
  rw [if_neg h1, if_neg h2, if_neg h3]
  congr 1
  funext a b
  fin_cases a <;> fin_cases b <;>
    simp +decide [setEntry, jacEntries, Matrix.vecHead, Matrix.vecTail]

/-- Inversion: any matrix a successful `calculate_jacobian` call returns is
`jacEntries`. -/
lemma calculate_jacobian_ok_inv (px py vx vy : ℝ) (M : Fin 3 → Fin 4 → ℝ)
    (h : calculate_jacobian ![px, py, vx, vy] = Except.ok M) :
    M = jacEntries px py vx vy := by
  unfold calculate_jacobian at h
  simp only [Matrix.cons_val_zero, Matrix.cons_val_one, Matrix.head_cons,
    Matrix.cons_val_two, Matrix.vecTail, Function.comp_apply, Fin.succ_zero_eq_one,
    Matrix.cons_val_three, Matrix.vecHead, Fin.succ_one_eq_two] at h
  split_ifs at h with h1 h2 h3
  rw [Except.ok.injEq] at h
  subst h
  funext a b
  fin_cases a <;> fin_cases b <;>
    simp +decide [setEntry, jacEntries, Matrix.vecHead, Matrix.vecTail]

/-- C1 (counter-evidence): at the state (1, 2, 0, 0) — where px ≠ py and the
row-2 pow terms vanish — the code's matrix has entry (2,2) = py/c2 = 2/√5
(not the claimed px/c2 = 1/√5) and entry (2,3) = 0 (not the claimed
py/c2 = 2/√5): the two stores land in the same cell (2,2), so row 2 does not
carry px/c2 and py/c2 in two distinct cells. -/
theorem C1_jacobian_row2_cells_overwritten :
    ∃ M : Fin 3 → Fin 4 → ℝ,
      calculate_jacobian ![1, 2, 0, 0] = Except.ok M ∧
      M 2 2 = 2 / Real.sqrt 5 ∧
      M 2 3 = 0 ∧
      M 2 2 ≠ 1 / Real.sqrt 5 ∧
      M 2 3 ≠ 2 / Real.sqrt 5 := by
  have h5 : (0 : ℝ) < Real.sqrt 5 := Real.sqrt_pos.mpr (by norm_num)
  have hs : Real.sqrt 5 ≠ 0 := ne_of_gt h5
  refine ⟨jacEntries 1 2 0 0,
    calculate_jacobian_eq 1 2 0 0 (by rw [Real.sqrt_eq_zero']; norm_num)
      (by norm_num) (by norm_num), ?_, ?_, ?_, ?_⟩
  · show jacEntries 1 2 0 0 2 2 = 2 / Real.sqrt 5
    simp [jacEntries]
    norm_num
  · show jacEntries 1 2 0 0 2 3 = 0
    simp [jacEntries, Matrix.vecHead, Matrix.vecTail]
  · show jacEntries 1 2 0 0 2 2 ≠ 1 / Real.sqrt 5
    simp only [jacEntries, Matrix.cons_val_two, Matrix.cons_val_three,
      Matrix.vecTail, Matrix.vecHead, Function.comp_apply, Fin.succ_zero_eq_one,
      Fin.succ_one_eq_two, Matrix.cons_val_zero, Matrix.cons_val_one, Matrix.head_cons]
    norm_num
    intro heq
    have h21 : (2 : ℝ) = 1 := by
      have hmul := congrArg (fun t => t * Real.sqrt 5) heq
      simp only [div_mul_cancel₀, hs, ne_eq, not_false_eq_true,
        inv_mul_cancel₀] at hmul
      exact hmul
    norm_num at h21
  · show jacEntries 1 2 0 0 2 3 ≠ 2 / Real.sqrt 5
    simp [jacEntries]
    positivity

/-- C2 (counter-evidence): the code has no 1e-4 threshold.  At the state
(3, 4, 0, 1), whose squared range 25 is far above 1e-4, the call fails with
the math domain error (`math.pow` applied to the negative base −12/25); and
at the state (0.001, 0, 0, 0), whose squared range 1e-6 is below 1e-4, it
succeeds and returns a matrix. -/
theorem C2_jacobian_threshold_contract_violated :
    calculate_jacobian ![3, 4, 0, 1] = Except.error "math domain error" ∧
    (3 : ℝ) ^ 2 + 4 ^ 2 ≥ 1 / 10000 ∧
    (∃ M, calculate_jacobian ![1 / 1000, 0, 0, 0] = Except.ok M) ∧
    (1 / 1000 : ℝ) ^ 2 + (0 : ℝ) ^ 2 < 1 / 10000 := by
  refine ⟨?_, by norm_num, ?_, by norm_num⟩
  · unfold calculate_jacobian
    simp only [Matrix.cons_val_zero, Matrix.cons_val_one, Matrix.head_cons,
      Matrix.cons_val_two, Matrix.vecTail, Function.comp_apply, Fin.succ_zero_eq_one,
      Matrix.cons_val_three, Matrix.vecHead, Fin.succ_one_eq_two]
    rw [if_neg (by rw [Real.sqrt_eq_zero']; norm_num), if_pos (by norm_num)]
  · exact ⟨jacEntries (1 / 1000) 0 0 0,
      calculate_jacobian_eq (1 / 1000) 0 0 0 (by rw [Real.sqrt_eq_zero']; norm_num)
        (by norm_num) (by norm_num)⟩

/-- C5: whenever px² + py² is at least 1e-4 and `calculate_jacobian` returns
a matrix, its row 0 is (px/c2, py/c2, 0, 0) and its row 1 is
(−py/c1, px/c1, 0, 0); at the state (3, 4, 0, 0) these rows are
(0.6, 0.8, 0, 0) and (−0.16, 0.12, 0, 0) exactly. -/
theorem C5_jacobian_rows_zero_one :
    (∀ (px py vx vy : ℝ) (M : Fin 3 → Fin 4 → ℝ),
      px ^ 2 + py ^ 2 ≥ 1 / 10000 →
      calculate_jacobian ![px, py, vx, vy] = Except.ok M →
      M 0 = ![px / Real.sqrt (px ^ 2 + py ^ 2), py / Real.sqrt (px ^ 2 + py ^ 2), 0, 0] ∧
      M 1 = ![-py / (px ^ 2 + py ^ 2), px / (px ^ 2 + py ^ 2), 0, 0]) ∧
    (∃ M, calculate_jacobian ![3, 4, 0, 0] = Except.ok M ∧
      M 0 = ![(3 : ℝ) / 5, 4 / 5, 0, 0] ∧ M 1 = ![-(4 : ℝ) / 25, 3 / 25, 0, 0]) := by
  have h25 : Real.sqrt ((3 : ℝ) ^ 2 + 4 ^ 2) = 5 := by
    rw [show ((3 : ℝ) ^ 2 + 4 ^ 2) = 5 ^ 2 by norm_num]
    exact Real.sqrt_sq (by norm_num)
  constructor
  · intro px py vx vy M _ hok
    rw [calculate_jacobian_ok_inv px py vx vy M hok]
    constructor
    · funext b
      fin_cases b <;> simp [jacEntries]
    · funext b
      fin_cases b <;> simp [jacEntries]
  · refine ⟨jacEntries 3 4 0 0,
      calculate_jacobian_eq 3 4 0 0 (by rw [Real.sqrt_eq_zero']; norm_num)
        (by norm_num) (by norm_num), ?_, ?_⟩
    · funext b
      fin_cases b <;> simp [jacEntries, h25]
    · funext b
      fin_cases b <;> simp [jacEntries] <;> norm_num

/-- C5 witness: the general row statement applied at the state (3, 4, 0, 0),
whose squared range 25 clears the 1e-4 threshold. -/
theorem C5_jacobian_rows_zero_one_witness :
    jacEntries 3 4 0 0 0 =
      ![(3 : ℝ) / Real.sqrt ((3 : ℝ) ^ 2 + 4 ^ 2), 4 / Real.sqrt ((3 : ℝ) ^ 2 + 4 ^ 2), 0, 0] ∧
    jacEntries 3 4 0 0 1 =
      ![-(4 : ℝ) / ((3 : ℝ) ^ 2 + 4 ^ 2), 3 / ((3 : ℝ) ^ 2 + 4 ^ 2), 0, 0] :=
  C5_jacobian_rows_zero_one.1 3 4 0 0 (jacEntries 3 4 0 0) (by norm_num)
    (calculate_jacobian_eq 3 4 0 0 (by rw [Real.sqrt_eq_zero']; norm_num)
      (by norm_num) (by norm_num))

/-- The modulus of the complex number with real part x and imaginary part y
is sqrt(x² + y²). -/
lemma complex_abs_mk (x y : ℝ) : Complex.abs ⟨x, y⟩ = Real.sqrt (x ^ 2 + y ^ 2) := by
  rw [Complex.abs_apply, Complex.normSq_mk]
  ring_nf

/-- Away from the origin, `cart_2_polar` returns the polar triple in closed
form. -/
lemma cart_2_polar_eq (px py vx vy : ℝ)
    (hs : ¬ Real.sqrt (px ^ 2 + py ^ 2) = 0) :
    cart_2_polar ![px, py, vx, vy] =
      Except.ok ![Real.sqrt (px ^ 2 + py ^ 2), atan2 py px,
        (px * vx + py * vy) / Real.sqrt (px ^ 2 + py ^ 2)] := by
  unfold cart_2_polar
  simp only [Matrix.cons_val_zero, Matrix.cons_val_one, Matrix.head_cons,
    Matrix.cons_val_two, Matrix.vecTail, Function.comp_apply, Fin.succ_zero_eq_one,
    Matrix.cons_val_three, Matrix.vecHead, Fin.succ_one_eq_two]
  rw [if_neg hs]

/-- C6: applying `cart_2_polar` and then `polar_2_cart` to any state with
positive squared range reproduces the position components (px, py). -/
theorem C6_polar_round_trip_position (px py vx vy : ℝ)
    (h : 0 < px ^ 2 + py ^ 2) (v : Fin 3 → ℝ)
    (hok : cart_2_polar ![px, py, vx, vy] = Except.ok v) :
    polar_2_cart (v 0) (v 1) (v 2) = (px, py) := by
  have hs0 : 0 < Real.sqrt (px ^ 2 + py ^ 2) := Real.sqrt_pos.mpr h
  have hs : Real.sqrt (px ^ 2 + py ^ 2) ≠ 0 := ne_of_gt hs0
  have hz : (⟨px, py⟩ : ℂ) ≠ 0 := by
    simp only [ne_eq, Complex.ext_iff, Complex.zero_re, Complex.zero_im, not_and]
    intro hx hy
    rw [hx, hy] at h
    norm_num at h
  rw [cart_2_polar_eq px py vx vy hs] at hok
  rw [Except.ok.injEq] at hok
  subst hok
  simp only [Matrix.cons_val_zero, Matrix.cons_val_one, Matrix.head_cons,
    Matrix.cons_val_two, Matrix.vecTail, Function.comp_apply, Fin.succ_zero_eq_one]
  unfold polar_2_cart atan2
  rw [Complex.cos_arg hz, Complex.sin_arg, complex_abs_mk]
  rw [div_mul_cancel₀ px hs, div_mul_cancel₀ py hs]

/-- C6 witness: the round trip applied at the state (3, 4, 0, 0). -/
theorem C6_polar_round_trip_position_witness :
    polar_2_cart (Real.sqrt ((3 : ℝ) ^ 2 + 4 ^ 2)) (atan2 4 3)
      (((3 : ℝ) * 0 + 4 * 0) / Real.sqrt ((3 : ℝ) ^ 2 + 4 ^ 2)) = (3, 4) :=
  C6_polar_round_trip_position 3 4 0 0 (by norm_num)
    ![Real.sqrt ((3 : ℝ) ^ 2 + 4 ^ 2), atan2 4 3,
      ((3 : ℝ) * 0 + 4 * 0) / Real.sqrt ((3 : ℝ) ^ 2 + 4 ^ 2)]
    (cart_2_polar_eq 3 4 0 0 (by rw [Real.sqrt_eq_zero']; norm_num))

/-- C4: away from the origin, `cart_2_polar` returns ρ = sqrt(px²+py²),
φ = atan2(py, px) lying in (−π, π], and ρ̇ = (px·vx+py·vy)/ρ; at the state
(1, 1, 2, 2) the triple is within 1e-5 of (1.41421, 0.78540, 2.82843). -/
theorem C4_cart_2_polar_formulas :
    (∀ px py vx vy : ℝ, (px, py) ≠ ((0 : ℝ), (0 : ℝ)) →
      cart_2_polar ![px, py, vx, vy] =
        Except.ok ![Real.sqrt (px ^ 2 + py ^ 2), atan2 py px,
          (px * vx + py * vy) / Real.sqrt (px ^ 2 + py ^ 2)] ∧
      atan2 py px ∈ Set.Ioc (-Real.pi) Real.pi) ∧
    (∃ v : Fin 3 → ℝ, cart_2_polar ![1, 1, 2, 2] = Except.ok v ∧
      |v 0 - 1.41421| < 1 / 100000 ∧ |v 1 - 0.78540| < 1 / 100000 ∧
      |v 2 - 2.82843| < 1 / 100000) := by
  have hms : Real.sqrt 2 * Real.sqrt 2 = 2 := Real.mul_self_sqrt (by norm_num)
  have h2pos : (0 : ℝ) < Real.sqrt 2 := Real.sqrt_pos.mpr (by norm_num)
  constructor
  · intro px py vx vy h
    have hne : ¬ (px = 0 ∧ py = 0) := by
      intro hc
      exact h (by rw [hc.1, hc.2])
    have hpos : 0 < px ^ 2 + py ^ 2 := by
      rcases not_and_or.mp hne with hx | hy
      · exact add_pos_of_pos_of_nonneg (pow_two_pos_of_ne_zero hx) (sq_nonneg py)
      · exact add_pos_of_nonneg_of_pos (sq_nonneg px) (pow_two_pos_of_ne_zero hy)
    have hs : ¬ Real.sqrt (px ^ 2 + py ^ 2) = 0 := ne_of_gt (Real.sqrt_pos.mpr hpos)
    exact ⟨cart_2_polar_eq px py vx vy hs, Complex.arg_mem_Ioc _⟩
  · have harg : atan2 1 1 = Real.pi / 4 := by
      unfold atan2
      have h14 : Real.pi / 4 ∈ Set.Ioc (-Real.pi) Real.pi :=
        ⟨by linarith [Real.pi_pos], by linarith [Real.pi_pos]⟩
      have hmk : (⟨1, 1⟩ : ℂ) =
          (Real.sqrt 2 : ℂ) * (Complex.cos ((Real.pi / 4 : ℝ) : ℂ) +
            Complex.sin ((Real.pi / 4 : ℝ) : ℂ) * Complex.I) := by
        rw [← Complex.ofReal_cos, ← Complex.ofReal_sin,
          Real.cos_pi_div_four, Real.sin_pi_div_four]
        apply Complex.ext
        · simp only [Complex.add_re, Complex.mul_re, Complex.ofReal_re,
            Complex.ofReal_im, Complex.I_re, Complex.I_im, Complex.add_im,
            Complex.mul_im]
          nlinarith [hms]
        · simp only [Complex.add_im, Complex.mul_im, Complex.ofReal_re,
            Complex.ofReal_im, Complex.I_re, Complex.I_im, Complex.add_re,
            Complex.mul_re]
          nlinarith [hms]
      rw [hmk, Complex.arg_mul_cos_add_sin_mul_I h2pos h14]
    have hl : (1.414213 : ℝ) < Real.sqrt 2 := (Real.lt_sqrt (by norm_num)).mpr (by norm_num)
    have hu : Real.sqrt 2 < 1.414214 := (Real.sqrt_lt' (by norm_num)).mpr (by norm_num)
    refine ⟨![Real.sqrt 2, Real.pi / 4, 2 * Real.sqrt 2], ?_, ?_, ?_, ?_⟩
    · rw [cart_2_polar_eq 1 1 2 2 (by rw [Real.sqrt_eq_zero']; norm_num)]
      congr 1
      funext i
      fin_cases i
      · show Real.sqrt ((1 : ℝ) ^ 2 + 1 ^ 2) = Real.sqrt 2
        norm_num
      · exact harg
      · show ((1 : ℝ) * 2 + 1 * 2) / Real.sqrt ((1 : ℝ) ^ 2 + 1 ^ 2) = 2 * Real.sqrt 2
        rw [show ((1 : ℝ) * 2 + 1 * 2) = 4 by norm_num,
          show ((1 : ℝ) ^ 2 + 1 ^ 2) = 2 by norm_num]
        rw [div_eq_iff (ne_of_gt h2pos)]
        nlinarith [hms]
    · show |Real.sqrt 2 - 1.41421| < 1 / 100000
      rw [abs_lt]
      constructor <;> linarith
    · show |Real.pi / 4 - 0.78540| < 1 / 100000
      rw [abs_lt]
      constructor <;> linarith [Real.pi_gt_d6, Real.pi_lt_d6]
    · show |2 * Real.sqrt 2 - 2.82843| < 1 / 100000
      rw [abs_lt]
      constructor <;> linarith

/-- C4 witness: the formula statement applied at the state (1, 1, 2, 2),
which is away from the origin. -/
theorem C4_cart_2_polar_formulas_witness :
    cart_2_polar ![1, 1, 2, 2] =
      Except.ok ![Real.sqrt ((1 : ℝ) ^ 2 + 1 ^ 2), atan2 1 1,
        ((1 : ℝ) * 2 + 1 * 2) / Real.sqrt ((1 : ℝ) ^ 2 + 1 ^ 2)] ∧
    atan2 1 1 ∈ Set.Ioc (-Real.pi) Real.pi :=
  C4_cart_2_polar_formulas.1 1 1 2 2 (by simp)
